import Mathlib

/-!
Verification of the client-ng telemetry pipeline core against its
natural-language specification.

The definitions below are a shallow embedding of the Python sources:
  * `src/wandb/interface/interface.py` (record/request builders, queues)
  * `src/wandb/internal/internal.py`   (queue-router dispatch loop)
  * `src/wandb/internal/sender.py`     (SendManager run-lifecycle state machine)

Modelling conventions:
  * Python `None` / falsy strings are modelled with `Option` (`none` covers
    both `None` and the falsy empty string where the source tests truthiness).
  * Protobuf oneof payloads are modelled as `Option` of an inductive sum,
    so "at most one variant" holds structurally and "at least one" is proved.
  * Exceptions are modelled with `Except String`; the carried string names the
    Python exception (quote characters from the original messages are elided).
  * Queues are modelled as lists, `put` appends at the tail, `get` pops the head.
  * Side effects that leave the state machine (API calls, file writes, defer
    sends) are recorded in explicit effect-log fields of the state.
-/

namespace ClientNG

/-- JSON values, the result of `json.loads` on the wire payloads. -/
inductive JVal where
  | null
  | boolean (b : Bool)
  | num (n : Int)
  | str (s : String)
  | arr (xs : List JVal)
  | obj (fields : List (String × JVal))

/-- A Python dict holding JSON values, keyed by strings (insertion ordered). -/
abbrev SummaryDict := List (String × JVal)

/-! ## Record protocol (interface.py) -/

/-- `Record.control` block (proto): `req_resp` and `local` flags.
`local` is named `is_local` here because `local` is a Lean keyword. -/
structure Control where
  req_resp : Bool := false
  is_local : Bool := false
deriving Repr, DecidableEq

structure LoginRequest where
  api_key : String := ""
  anonymous : String := ""
deriving Repr, DecidableEq

structure DeferRequest where
deriving Repr, DecidableEq

structure GetSummaryRequest where
deriving Repr, DecidableEq

structure PauseRequest where
deriving Repr, DecidableEq

structure ResumeRequest where
deriving Repr, DecidableEq

/-- The nested `request_type` oneof of a `Request` (proto). -/
inductive RequestPayload where
  | login (l : LoginRequest)
  | defer (d : DeferRequest)
  | get_summary (g : GetSummaryRequest)
  | pause (p : PauseRequest)
  | resume (r : ResumeRequest)
deriving Repr, DecidableEq

/-- `Request` message: oneof modelled as `Option` (unset possible). -/
structure Request where
  request_type : Option RequestPayload := none
deriving Repr, DecidableEq

structure ConfigItem where
  key : String
  value_json : String
deriving Repr, DecidableEq

structure ConfigRecord where
  update : List ConfigItem := []
deriving Repr, DecidableEq

/-- `RunRecord` (proto): identity fields; the empty string is falsy/unset. -/
structure RunRecord where
  run_id : String := ""
  entity : String := ""
  project : String := ""
  run_group : String := ""
  job_type : String := ""
  display_name : String := ""
  notes : String := ""
  tags : List String := []
  host : String := ""
  sweep_id : String := ""
  storage_id : String := ""
  config : Option ConfigRecord := none
  start_time : Int := 0
  starting_step : Int := 0
deriving Repr, DecidableEq

structure SummaryItem where
  key : String := ""
  nested_key : List String := []
  /-- `json.loads item.value_json`, assumed well-formed. -/
  value : JVal := JVal.null

structure SummaryRecord where
  update : List SummaryItem := []
  remove : List SummaryItem := []

structure HistoryRecord where
  item : List ConfigItem := []

structure StatsRecord where
  item : List ConfigItem := []
  timestamp : Int := 0

inductive OutputType where
  | stdout
  | stderr
deriving Repr, DecidableEq

structure OutputRecord where
  output_type : OutputType
  line : String
deriving Repr, DecidableEq

structure FilesRecord where
  files : List (String × String) := []
deriving Repr, DecidableEq

structure RunExitRecord where
  exit_code : Int := 0
deriving Repr, DecidableEq

structure ArtifactRecord where
  name : String := ""
  digest : String := ""
deriving Repr, DecidableEq

/-- The `record_type` oneof of a `Record` (proto). -/
inductive RecordPayload where
  | run (r : RunRecord)
  | config (c : ConfigRecord)
  | summary (s : SummaryRecord)
  | history (h : HistoryRecord)
  | files (f : FilesRecord)
  | stats (s : StatsRecord)
  | exit (e : RunExitRecord)
  | artifact (a : ArtifactRecord)
  | request (r : Request)

/-- `Record` envelope: oneof payload, correlation uuid, control block. -/
structure Record where
  record_type : Option RecordPayload := none
  uuid : String := ""
  control : Control := {}

/-- Arguments of `BackendSender._make_record` (interface.py:261): nine optional
payloads, default `None`. -/
structure MakeRecordArgs where
  run : Option RunRecord := none
  config : Option ConfigRecord := none
  files : Option FilesRecord := none
  summary : Option SummaryRecord := none
  history : Option HistoryRecord := none
  stats : Option StatsRecord := none
  exit : Option RunExitRecord := none
  artifact : Option ArtifactRecord := none
  request : Option Request := none

/-- `BackendSender._make_record` (interface.py:261-294): an if/elif chain over
the argument payloads in declaration order; the final `else` raises
`Exception("problem")`. Protobuf message objects are always truthy, so each
test is an `isSome` test. -/
def make_record (a : MakeRecordArgs) : Except String Record :=
  match a.run with
  | some r => .ok { record_type := some (.run r) }
  | none => match a.config with
  | some c => .ok { record_type := some (.config c) }
  | none => match a.summary with
  | some s => .ok { record_type := some (.summary s) }
  | none => match a.history with
  | some h => .ok { record_type := some (.history h) }
  | none => match a.files with
  | some f => .ok { record_type := some (.files f) }
  | none => match a.stats with
  | some s => .ok { record_type := some (.stats s) }
  | none => match a.exit with
  | some e => .ok { record_type := some (.exit e) }
  | none => match a.artifact with
  | some ar => .ok { record_type := some (.artifact ar) }
  | none => match a.request with
  | some rq => .ok { record_type := some (.request rq) }
  | none => .error "problem"

/-- Arguments of `BackendSender._make_request` (interface.py:242). -/
structure MakeRequestArgs where
  login : Option LoginRequest := none
  defer : Option DeferRequest := none
  get_summary : Option GetSummaryRequest := none
  pause : Option PauseRequest := none
  resume : Option ResumeRequest := none

/-- `BackendSender._make_request` (interface.py:242-259): if/elif chain over
the request payloads; zero supplied payloads raises `Exception("problem")`;
the resulting request is wrapped by `_make_record(request=...)`. -/
def make_request (a : MakeRequestArgs) : Except String Record :=
  match a.login with
  | some l => make_record { request := some { request_type := some (.login l) } }
  | none => match a.defer with
  | some d => make_record { request := some { request_type := some (.defer d) } }
  | none => match a.get_summary with
  | some g => make_record { request := some { request_type := some (.get_summary g) } }
  | none => match a.pause with
  | some p => make_record { request := some { request_type := some (.pause p) } }
  | none => match a.resume with
  | some r => make_record { request := some { request_type := some (.resume r) } }
  | none => .error "problem"

/-- The highest-priority supplied payload of `_make_record`, in the order the
if/elif chain tests them. -/
def record_args_first (a : MakeRecordArgs) : Option RecordPayload :=
  (a.run.map .run) <|> (a.config.map .config) <|> (a.summary.map .summary) <|>
  (a.history.map .history) <|> (a.files.map .files) <|> (a.stats.map .stats) <|>
  (a.exit.map .exit) <|> (a.artifact.map .artifact) <|> (a.request.map .request)

/-- The highest-priority supplied payload of `_make_request`. -/
def request_args_first (a : MakeRequestArgs) : Option RequestPayload :=
  (a.login.map .login) <|> (a.defer.map .defer) <|>
  (a.get_summary.map .get_summary) <|> (a.pause.map .pause) <|> (a.resume.map .resume)

/-! ## Producer-side queues (interface.py) -/

/-- Tags on the notify channel (`wandb/interface/constants.py`, not under
`src/`; the claims depend only on the tags being distinct). -/
inductive NotifyTag where
  | process
  | request
  | shutdown
deriving Repr, DecidableEq

/-- The producer-process handle optionally attached to a `BackendSender`. -/
structure ProcessHandle where
  is_alive : Bool
deriving Repr, DecidableEq

/-- State of a `BackendSender` (interface.py:49-66): the two outbound queues
and the optional producer-process handle. -/
structure BackendSenderState where
  process_queue : List Record := []
  notify_queue : List NotifyTag := []
  process : Option ProcessHandle := none

/-- `BackendSender._queue_process` (interface.py:296-300): raise
`Exception("problem")` if a process handle is attached and it is not alive;
otherwise put the record on the process queue and a `NOTIFY_PROCESS` tag on
the notify queue. -/
def queue_process (bs : BackendSenderState) (rec : Record) :
    Except String BackendSenderState :=
  match bs.process with
  | some p =>
    if !p.is_alive then .error "problem"
    else .ok { bs with
      process_queue := bs.process_queue ++ [rec]
      notify_queue := bs.notify_queue ++ [NotifyTag.process] }
  | none => .ok { bs with
      process_queue := bs.process_queue ++ [rec]
      notify_queue := bs.notify_queue ++ [NotifyTag.process] }

/-- `BackendSender.send_defer` (interface.py:435-439): build a defer request
record, mark it `control.local`, and enqueue it via `_queue_process`. -/
def send_defer (bs : BackendSenderState) : Except String BackendSenderState :=
  match make_request { defer := some {} } with
  | .error e => .error e
  | .ok rec => queue_process bs { rec with control := { rec.control with is_local := true } }

/-! ## Queue-router dispatch loop (internal.py wandb_internal, lines 367-408) -/

/-- Queue state visible to one iteration of the `wandb_internal` dispatch
loop.  `send_queue = none` models offline mode (the queue is never created). -/
structure RouterState where
  process_queue : List Record := []
  req_queue : List Record := []
  send_queue : Option (List Record) := some []
  write_queue : List Record := []

/-- One routing step of `wandb_internal` (internal.py:381-397) on a notify
tag.  `NOTIFY_PROCESS`: pop the process queue, forward to the send queue (if
online) and unconditionally to the write (durability) queue.
`NOTIFY_REQUEST`: pop the request queue, forward to the send queue, and to the
write queue only when the record is not marked `control.local`.
`NOTIFY_SHUTDOWN` stops the loop without touching the queues.  An empty source
queue would block `Queue.get` forever; it is modelled as leaving the state
unchanged (the claims only dispatch tags with a matching pending record). -/
def wandb_internal_notify (st : RouterState) (tag : NotifyTag) : RouterState :=
  match tag with
  | .process =>
    match st.process_queue with
    | [] => st
    | rec :: rest =>
      { st with
        process_queue := rest
        send_queue := st.send_queue.map (· ++ [rec])
        write_queue := st.write_queue ++ [rec] }
  | .request =>
    match st.req_queue with
    | [] => st
    | rec :: rest =>
      { st with
        req_queue := rest
        send_queue := st.send_queue.map (· ++ [rec])
        write_queue := if rec.control.is_local then st.write_queue
                       else st.write_queue ++ [rec] }
  | .shutdown => st

/-! ## SendManager state (sender.py) -/

/-- `DeferState` (sender.py:44-46): a namedtuple of consecutive integers. -/
def DeferState.begin : Nat := 0

def DeferState.flush_tb : Nat := 1

def DeferState.flush_dir : Nat := 2

def DeferState.flush_fp : Nat := 3

def DeferState.flush_fs : Nat := 4

/-- `DeferState.end`; `end` is a Lean keyword, hence the trailing underscore. -/
def DeferState.end_ : Nat := 5

inductive ErrorCode where
  | UNKNOWN
  | COMMUNICATION
  | AUTHENTICATION
  | USAGE
  | INVALID
deriving Repr, DecidableEq

structure ErrorInfo where
  code : ErrorCode
  message : String
deriving Repr, DecidableEq

/-- `RunExitResult` proto message (carries no fields used by the core). -/
structure RunExitResult where
deriving Repr, DecidableEq

structure PusherStats where
  uploaded_bytes : Nat := 0
  total_bytes : Nat := 0
  deduped_bytes : Nat := 0
deriving Repr, DecidableEq

structure FileCounts where
  wandb_count : Nat := 0
  media_count : Nat := 0
  artifact_count : Nat := 0
  other_count : Nat := 0
deriving Repr, DecidableEq

/-- `PollExitResponse` proto message. -/
structure PollExitResponse where
  pusher_stats : PusherStats := {}
  file_counts : FileCounts := {}
  done : Bool := false
  exit_result : Option RunExitResult := none
deriving Repr, DecidableEq

/-- The body of a `Result` put on the response queue (only the variants the
modelled handlers produce). -/
inductive ResultBody where
  | run_result (run : RunRecord) (error : Option ErrorInfo)
  | exit_result (r : RunExitResult)
  | poll_exit_response (p : PollExitResponse)
deriving Repr, DecidableEq

structure Result where
  uuid : String := ""
  body : ResultBody
deriving Repr, DecidableEq

/-- State of a `FilePusher` as observed by the SendManager:
`get_status` returns `(alive, stats)`, `file_counts_by_category` the counts,
`finish` signals the drain (recorded in `finish_called`). -/
structure Pusher where
  alive : Bool := true
  stats : PusherStats := {}
  file_counts : FileCounts := {}
  finish_called : Bool := false
deriving Repr, DecidableEq

/-- Per-file streaming policy as constructed by `handle_run`
(sender.py:411-426); the policy classes live in `file_stream.py`, the
constructor arguments visible at the call sites are the data here. -/
inductive FilePolicy where
  | summary
  | jsonl (start_chunk_id : Nat)
  | crdedupe (start_chunk_id : Nat)
deriving Repr, DecidableEq

/-- Data pushed to the file-stream: raw text line, or a JSON document
(standing for `json.dumps` of the dict). -/
inductive FsData where
  | text (s : String)
  | jsonDoc (d : SummaryDict)

/-- State of the `FileStreamApi` as driven by the SendManager. -/
structure FileStream where
  policies : List (String × FilePolicy) := []
  pushes : List (String × FsData) := []
  started : Bool := false

/-- Fixed streamed-file names (`wandb/lib/filenames.py`, not under `src/`;
the literals match the strings used at sender.py:412-425). -/
def SUMMARY_FNAME : String := "wandb-summary.json"

def HISTORY_FNAME : String := "wandb-history.jsonl"

def EVENTS_FNAME : String := "wandb-events.jsonl"

def OUTPUT_FNAME : String := "output.log"

/-- The resume offsets dict (sender.py:79-85). -/
structure Offsets where
  step : Int := 0
  history : Nat := 0
  events : Nat := 0
  output : Nat := 0
  runtime : Int := 0
deriving Repr, DecidableEq

/-- The parsed last line of the prior run's history tail
(`json.loads(json.loads(resume_status["historyTail"])[-1])`); fields are
optional because `.get` with a default is used. -/
structure HistoryTailData where
  runtime : Option Int := none
  step : Option Int := none
deriving Repr, DecidableEq

structure EventsTailData where
  runtime : Option Int := none
deriving Repr, DecidableEq

/-- The remote's `run_resume_status` response, with the tails already parsed;
`none` tails model the `(IndexError, ValueError)` branch where parsing fails
and the corresponding dict stays empty. -/
structure ResumeStatus where
  historyTail : Option HistoryTailData := none
  eventsTail : Option EventsTailData := none
  historyLineCount : Nat := 0
  eventsLineCount : Nat := 0
  logLineCount : Nat := 0
deriving Repr, DecidableEq

/-- The part of the settings object the modelled handlers read; `resume` is
`none` when the Python value is falsy (`None` or `""`). -/
structure Settings where
  resume : Option String := none
deriving Repr, DecidableEq

/-- The remote `upsert_run` response fields read back by `handle_run`
(sender.py:377-394); `none` models missing or falsy values. -/
structure UpsertEntity where
  name : Option String := none
deriving Repr, DecidableEq

structure UpsertProject where
  name : Option String := none
  entity : Option UpsertEntity := none
deriving Repr, DecidableEq

structure UpsertResponse where
  id : Option String := none
  displayName : Option String := none
  project : Option UpsertProject := none
deriving Repr, DecidableEq

/-- Responses the opaque RPC boundary would return during one `handle_run`
call; passed explicitly since the embedding is pure. -/
structure ApiResponses where
  resume_status : Option ResumeStatus := none
  upsert : UpsertResponse := {}
deriving Repr, DecidableEq

/-- `SendManager` state (sender.py:57-108) plus explicit effect logs.
`defer_sends` counts `self._interface.send_defer()` calls, `upsert_calls`
logs the run names passed to `api.upsert_run`, `config_writes` counts config
snapshot file writes, `summary_file_writes` counts local summary writes and
`dir_policy_updates` logs `dir_watcher.update_policy` calls. -/
structure SM where
  settings : Settings := {}
  entity : Option String := none
  project : Option String := none
  run : Option RunRecord := none
  offsets : Offsets := {}
  exit_sync_uuid : Option String := none
  exit_result : Option RunExitResult := none
  defer_state : Option Nat := none
  exit_code : Int := 0
  consolidated_summary : SummaryDict := []
  stdout_buf : String := ""
  stderr_buf : String := ""
  fs : Option FileStream := none
  pusher : Option Pusher := none
  dir_watcher : Option Unit := none
  tb_watcher : Option Unit := none
  resp_q : List Result := []
  defer_sends : Nat := 0
  upsert_calls : List String := []
  config_writes : Nat := 0
  summary_file_writes : Nat := 0
  dir_policy_updates : List (String × String) := []

/-! ## Exit and the defer shutdown sequence (sender.py:179-246) -/

/-- The payload and control flags of an exit record as read by `handle_exit`. -/
structure ExitData where
  exit_code : Int := 0
  req_resp : Bool := false
  uuid : String := ""
deriving Repr, DecidableEq

/-- `SendManager.handle_exit` (sender.py:179-193): store the exit code, adopt
the uuid when a response is requested, set the defer state to `begin` and
issue a self-addressed defer request. -/
def handle_exit (sm : SM) (data : ExitData) : SM :=
  let sm := { sm with exit_code := data.exit_code }
  let sm := if data.req_resp then { sm with exit_sync_uuid := some data.uuid } else sm
  let sm := { sm with defer_state := some DeferState.begin }
  { sm with defer_sends := sm.defer_sends + 1 }

/-- `SendManager.handle_request_defer` (sender.py:195-246): run the teardown
action of the current state; unless the state is `end`, advance by one and
re-issue the defer request.  At `end`, when the exit was synchronous, join and
clear the pusher and reply on the response queue; always record the exit
result.  A missing or out-of-range state raises `AssertionError`. -/
def handle_request_defer (sm : SM) : Except String SM :=
  match sm.defer_state with
  | none => .error "AssertionError: unknown state"
  | some state =>
    let step? : Except String (SM × Bool) :=
      if state = DeferState.begin then .ok (sm, false)
      else if state = DeferState.flush_tb then .ok ({ sm with tb_watcher := none }, false)
      else if state = DeferState.flush_dir then .ok ({ sm with dir_watcher := none }, false)
      else if state = DeferState.flush_fp then
        .ok ({ sm with pusher := sm.pusher.map (fun p => { p with finish_called := true }) }, false)
      else if state = DeferState.flush_fs then .ok ({ sm with fs := none }, false)
      else if state = DeferState.end_ then .ok (sm, true)
      else .error "AssertionError: unknown state"
    match step? with
    | .error e => .error e
    | .ok (sm, done) =>
      if !done then
        .ok { sm with defer_state := some (state + 1), defer_sends := sm.defer_sends + 1 }
      else
        let exit_result : RunExitResult := {}
        let sm :=
          match sm.exit_sync_uuid with
          | some u =>
            let sm := match sm.pusher with
              | some _ => { sm with pusher := none }
              | none => sm
            { sm with resp_q := sm.resp_q ++ [({ uuid := u, body := .exit_result exit_result } : Result)] }
          | none => sm
        .ok { sm with exit_result := some exit_result }

/-- The control flags of a poll-exit request as read by the handler. -/
structure PollExitData where
  req_resp : Bool := false
  uuid : String := ""
deriving Repr, DecidableEq

/-- `SendManager.handle_request_poll_exit` (sender.py:248-272): when a reply
is requested, report pusher stats; once the exit result exists and the pusher
is not alive, join the pusher, mark `done` and attach the exit result.  The
join `self._pusher.join()` is evaluated even when `self._pusher` is `None`,
which raises `AttributeError`. -/
def handle_request_poll_exit (sm : SM) (data : PollExitData) : Except String SM :=
  if !data.req_resp then .ok sm
  else
    let (alive, resp) :=
      match sm.pusher with
      | some p =>
        (p.alive, { pusher_stats := p.stats, file_counts := p.file_counts : PollExitResponse })
      | none => (false, ({} : PollExitResponse))
    if sm.exit_result.isSome && !alive then
      match sm.pusher, sm.exit_result with
      | none, _ => .error "AttributeError: NoneType object has no attribute join"
      | some _, some er =>
        let resp := { resp with done := true, exit_result := some er }
        .ok { sm with resp_q := sm.resp_q ++ [{ uuid := data.uuid, body := .poll_exit_response resp }] }
      | some _, none => .ok sm
    else
      .ok { sm with resp_q := sm.resp_q ++ [{ uuid := data.uuid, body := .poll_exit_response resp }] }

/-! ## Run creation and resume (sender.py:274-438) -/

/-- Python string truthiness: `s or None`. -/
def strOpt (s : String) : Option String := if s = "" then none else some s

/-- `SendManager._maybe_setup_resume` (sender.py:274-322), with the remote's
`run_resume_status` reply passed in explicitly.  Returns the error (if any)
and the updated offsets dict. -/
def maybe_setup_resume (settings : Settings) (run : RunRecord)
    (resume_status : Option ResumeStatus) (offsets : Offsets) :
    Option ErrorInfo × Offsets :=
  match settings.resume with
  | none => (none, offsets)
  | some r =>
    match resume_status with
    | none =>
      if r = "must" then
        (some { code := .INVALID,
                message := "resume=must but run (" ++ run.run_id ++ ") does not exist" },
         offsets)
      else (none, offsets)
    | some st =>
      if r = "never" then
        (some { code := .INVALID,
                message := "resume=never but run (" ++ run.run_id ++ ") exists" },
         offsets)
      else if r = "allow" ∨ r = "auto" then
        let events_rt : Int := match st.eventsTail with
          | some e => e.runtime.getD 0
          | none => 0
        let history_rt : Int := match st.historyTail with
          | some h => h.runtime.getD 0
          | none => 0
        let hist_step : Int := match st.historyTail with
          | some h => h.step.getD (-1)
          | none => -1
        (none,
         { runtime := max events_rt history_rt
           step := hist_step + 1
           history := st.historyLineCount
           events := st.eventsLineCount
           output := st.logLineCount })
      else (none, offsets)

/-- The payload and control flags of a run record as read by `handle_run`. -/
structure RunData where
  run : RunRecord
  req_resp : Bool := false
  uuid : String := ""
deriving Repr, DecidableEq

/-- Back-filling of server-assigned identifiers from the `upsert_run`
response onto the local run (sender.py:377-394); returns the updated run and
the new `self._project` / `self._entity` values. -/
def upsert_backfill (run : RunRecord) (sm_project sm_entity : Option String)
    (ups : UpsertResponse) : RunRecord × Option String × Option String :=
  let run := match ups.id with
    | some sid => { run with storage_id := sid }
    | none => run
  let run := match ups.displayName with
    | some dn => { run with display_name := dn }
    | none => run
  match ups.project with
  | some proj =>
    let (run, p) := match proj.name with
      | some pn => ({ run with project := pn }, some pn)
      | none => (run, sm_project)
    let (run, e) := match proj.entity.bind (·.name) with
      | some en => ({ run with entity := en }, some en)
      | none => (run, sm_entity)
    (run, p, e)
  | none => (run, sm_project, sm_entity)

/-- `SendManager.handle_run` (sender.py:324-438): on the first run record
check the resume configuration (replying with the error and stopping when it
is violated), upsert the run remotely, back-fill server-assigned identifiers,
reply when requested, and on first creation only start the file stream (with
the resume offsets as the policies' starting positions), pusher and
watchers. -/
def handle_run (sm0 : SM) (data : RunData) (api : ApiResponses) : SM :=
  let run := data.run
  let is_wandb_init := sm0.run.isNone
  -- config snapshot written whenever the record carries a config
  let sm := if run.config.isSome then { sm0 with config_writes := sm0.config_writes + 1 } else sm0
  -- resume status checked on `wandb.init` only
  let (error, offsets) :=
    if is_wandb_init then maybe_setup_resume sm.settings run api.resume_status sm.offsets
    else (none, sm.offsets)
  match error with
  | some err =>
    if data.req_resp then
      { sm with resp_q := sm.resp_q ++
          [{ uuid := data.uuid, body := .run_result run (some err) }] }
    else sm  -- the error is only logged in async mode
  | none =>
    let sm := { sm with offsets := offsets, upsert_calls := sm.upsert_calls ++ [run.run_id] }
    let start_time := run.start_time - offsets.runtime
    let run := { run with starting_step := offsets.step, start_time := start_time }
    let bf := upsert_backfill run sm.project sm.entity api.upsert
    let sm := { sm with run := some bf.1, project := bf.2.1, entity := bf.2.2 }
    let sm :=
      if data.req_resp then
        { sm with resp_q := sm.resp_q ++
            [{ uuid := data.uuid, body := .run_result bf.1 none }] }
      else sm
    if is_wandb_init then
      { sm with
        fs := some
          { policies :=
              [(SUMMARY_FNAME, .summary),
               (HISTORY_FNAME, .jsonl offsets.history),
               (EVENTS_FNAME, .jsonl offsets.events),
               (OUTPUT_FNAME, .crdedupe offsets.output)]
            pushes := []
            started := true }
        pusher := some {}
        dir_watcher := some ()
        tb_watcher := some () }
    else sm

/-- Modelled from the spec: the append-line (`JsonlFilePolicy`) stream of
`file_stream.py` is not under `src/`; per §4.4 the policy "appends one line"
per push and "is constructed with a starting line offset (from resume) so
re-attachment continues numbering correctly".  The stored line count after
`pushed` pushes against a policy constructed with `start_chunk_id` is
therefore the starting offset plus the number of pushes. -/
def jsonl_line_count (start_chunk_id pushed : Nat) : Nat :=
  start_chunk_id + pushed

/-! ## Output coalescing (sender.py:524-548) -/

/-- `line.endswith` with the newline terminator. -/
def ends_with_newline (s : String) : Bool :=
  s.data.getLast? == some '\n'

/-- Read the per-stream partial-output buffer (`self._partial_output`). -/
def SM.buf (sm : SM) : OutputType → String
  | .stdout => sm.stdout_buf
  | .stderr => sm.stderr_buf

/-- Write the per-stream partial-output buffer. -/
def SM.setBuf (sm : SM) : OutputType → String → SM
  | .stdout, s => { sm with stdout_buf := s }
  | .stderr, s => { sm with stderr_buf := s }

/-- `SendManager.handle_output` (sender.py:524-548): drop the fragment when no
file stream is active; buffer fragments without a trailing newline; on a
newline-terminated fragment push one line `prepend ++ timestamp ++ buffered ++
fragment` to `output.log` and clear the buffer.  `iso_time` stands for
`datetime.utcfromtimestamp(time.time()).isoformat()`, passed in because the
embedding is pure. -/
def handle_output (sm : SM) (out : OutputRecord) (iso_time : String) : SM :=
  match sm.fs with
  | none => sm
  | some fs =>
    let (stream, prepend_str) :=
      match out.output_type with
      | .stderr => (OutputType.stderr, "ERROR ")
      | .stdout => (OutputType.stdout, "")
    if !ends_with_newline out.line then
      sm.setBuf stream (sm.buf stream ++ out.line)
    else
      let timestamp := iso_time ++ " "
      let prev_str := sm.buf stream
      let line := prepend_str ++ timestamp ++ prev_str ++ out.line
      let sm := { sm with fs := some { fs with pushes := fs.pushes ++ [(OUTPUT_FNAME, FsData.text line)] } }
      sm.setBuf stream ""

/-! ## Summary consolidation (sender.py:454-504)

The consolidated summary is a Python dict; lookup, write and delete act on the
first (unique) occurrence of a key in the insertion-ordered association list.
-/

def lookup_key : SummaryDict → String → Option JVal
  | [], _ => none
  | (k, v) :: rest, key => if k = key then some v else lookup_key rest key

/-- `d[key] = v`: replace in place when present, append otherwise. -/
def set_key : SummaryDict → String → JVal → SummaryDict
  | [], key, v => [(key, v)]
  | (k, w) :: rest, key, v =>
    if k = key then (k, v) :: rest else (k, w) :: set_key rest key v

/-- `del d[key]` on a dict that holds the key. -/
def erase_key : SummaryDict → String → SummaryDict
  | [], _ => []
  | (k, w) :: rest, key => if k = key then rest else (k, w) :: erase_key rest key

def contains_key (d : SummaryDict) (key : String) : Bool :=
  (lookup_key d key).isSome

/-- Navigate `target = target[prop]` down `key[:-1]` and write the leaf
`target[key[-1]] = v` (sender.py:476-483).  `none` models the `KeyError` of a
missing intermediate key or the `TypeError` of indexing a non-dict. -/
def set_path : SummaryDict → List String → JVal → Option SummaryDict
  | _, [], _ => none
  | d, [k], v => some (set_key d k v)
  | d, k :: rest, v =>
    match lookup_key d k with
    | some (JVal.obj inner) =>
      (set_path inner rest v).map (fun inner' => set_key d k (JVal.obj inner'))
    | _ => none

/-- Navigate down `key[:-1]` and erase the leaf `del target[key[-1]]`
(sender.py:495-502); `none` models `KeyError`/`TypeError`. -/
def del_path : SummaryDict → List String → Option SummaryDict
  | _, [] => none
  | d, [k] => if contains_key d k then some (erase_key d k) else none
  | d, k :: rest =>
    match lookup_key d k with
    | some (JVal.obj inner) =>
      (del_path inner rest).map (fun inner' => set_key d k (JVal.obj inner'))
    | _ => none

/-- The key tuple of a summary item (sender.py:466-474 and 485-493): a
non-empty `nested_key` is used as-is (asserting `key == ""`), otherwise the
one-element tuple `(key,)`. -/
def summary_item_key (item : SummaryItem) : Except String (List String) :=
  match item.nested_key with
  | [] => .ok [item.key]
  | ks => if item.key ≠ "" then .error "AssertionError" else .ok ks

def apply_summary_update (d : SummaryDict) (item : SummaryItem) :
    Except String SummaryDict := do
  let key ← summary_item_key item
  match set_path d key item.value with
  | some d' => .ok d'
  | none => .error "KeyError"

def apply_summary_remove (d : SummaryDict) (item : SummaryItem) :
    Except String SummaryDict := do
  let key ← summary_item_key item
  match del_path d key with
  | some d' => .ok d'
  | none => .error "KeyError"

/-- `SendManager._save_file` (sender.py:560-562): `dir_watcher.update_policy`;
raises `AttributeError` when the watcher is `None` (no run started or already
torn down). -/
def save_file (sm : SM) (fname policy : String) : Except String SM :=
  match sm.dir_watcher with
  | none => .error "AttributeError: NoneType object has no attribute update_policy"
  | some _ => .ok { sm with dir_policy_updates := sm.dir_policy_updates ++ [(fname, policy)] }

/-- `SendManager._save_summary` (sender.py:454-461): push the whole summary
document to the file stream when active, write the local summary file, and
register it with the directory watcher. -/
def save_summary (sm : SM) : Except String SM :=
  let sm := match sm.fs with
    | some fs => { sm with fs := some { fs with
        pushes := fs.pushes ++ [(SUMMARY_FNAME, FsData.jsonDoc sm.consolidated_summary)] } }
    | none => sm
  let sm := { sm with summary_file_writes := sm.summary_file_writes + 1 }
  save_file sm SUMMARY_FNAME "end"

/-- `SendManager.handle_summary` (sender.py:463-504): apply every `update`
item, then every `remove` item, to the consolidated summary, then persist the
whole document.  (In Python a failing item leaves the earlier mutations in
place; the claims only concern the non-raising runs, where the distinction is
invisible.) -/
def handle_summary (sm : SM) (summary : SummaryRecord) : Except String SM := do
  let d ← summary.update.foldlM apply_summary_update sm.consolidated_summary
  let d ← summary.remove.foldlM apply_summary_remove d
  save_summary { sm with consolidated_summary := d }

/-! ## Artifact manifest serialization (interface.py:133-156) -/

/-- One entry of an artifact manifest (`entries` is a mapping keyed by logical
path, so paths are unique); `ref`/`local_path` use `Option` for falsy
values. -/
structure ManifestEntry where
  path : String
  digest : String
  size : Nat := 0
  ref : Option String := none
  local_path : Option String := none
  extra : List (String × JVal) := []

/-- A manifest entry as serialized into the proto (`proto_entry`). -/
structure ProtoEntry where
  path : String
  digest : String
  size : Nat
  ref : Option String
  local_path : Option String
  extra : List (String × JVal)

/-- The manifest handed to `_make_artifact_manifest`: `entries` lists the
values of the path-keyed entry mapping in insertion order. -/
structure ArtifactManifestData where
  version : Nat := 1
  storage_policy : String := ""
  storage_policy_config : List (String × JVal) := []
  entries : List ManifestEntry := []

/-- The serialized proto manifest. -/
structure ProtoManifest where
  version : Nat
  storage_policy : String
  storage_policy_config : List (String × JVal)
  contents : List ProtoEntry

def to_proto_entry (e : ManifestEntry) : ProtoEntry :=
  { path := e.path, digest := e.digest, size := e.size,
    ref := e.ref, local_path := e.local_path, extra := e.extra }

/-- `BackendSender._make_artifact_manifest` (interface.py:133-156): copy the
version, storage policy and its config, then serialize the entries sorted by
path (`sorted(..., key=lambda k: k.path)`; Python's stable sort is modelled by
insertion sort, which with unique paths yields the same list). -/
def make_artifact_manifest (m : ArtifactManifestData) : ProtoManifest :=
  { version := m.version
    storage_policy := m.storage_policy
    storage_policy_config := m.storage_policy_config
    contents := (List.insertionSort (fun a b => a.path ≤ b.path) m.entries).map to_proto_entry }

/-! ## Auxiliary definitions for the verification -/

/-- The per-stream line marker of `handle_output` (sender.py:528-532): empty
for stdout, `ERROR ` for stderr. -/
def stream_prepend : OutputType → String
  | .stdout => ""
  | .stderr => "ERROR "

/-- A SendManager state in which a run has started: file stream, pusher and
both watchers are up (as `handle_run` leaves them on first creation). -/
def smRun0 : SM :=
  { fs := some { started := true }
    pusher := some {}
    dir_watcher := some ()
    tb_watcher := some () }

/-- `n` defer request round-trips: each `send_defer` issued by the handler
comes back to `handle_request_defer`. -/
def defer_trace (sm : SM) : Nat → Except String SM
  | 0 => .ok sm
  | n + 1 => (defer_trace sm n).bind handle_request_defer

def entryA : ManifestEntry := { path := "a", digest := "da" }

def entryB : ManifestEntry := { path := "b", digest := "db" }

instance instIsTotalEntryPathLe : IsTotal ManifestEntry (fun a b => a.path ≤ b.path) :=
  ⟨fun a b => le_total a.path b.path⟩

instance instIsTransEntryPathLe : IsTrans ManifestEntry (fun a b => a.path ≤ b.path) :=
  ⟨fun _ _ _ h1 h2 => le_trans h1 h2⟩

instance instIsAntisymmEntryPathLt : IsAntisymm ManifestEntry (fun a b => a.path < b.path) :=
  ⟨fun _ _ h1 h2 => absurd h2 (lt_asymm h1)⟩

/-! # Theorems -/

/-- C10: every asynchronous send enqueues atomically: when a producer-process
handle is attached and not alive, `_queue_process` raises and neither queue is
modified (the error is returned before any put); otherwise exactly one record
is appended to the process queue and exactly one `NOTIFY_PROCESS` tag to the
notify queue, preserving the one-to-one correspondence of the two queues. -/
theorem queue_process_atomic :
    ∀ (bs : BackendSenderState) (rec : Record),
      ((∃ p, bs.process = some p ∧ p.is_alive = false) →
        queue_process bs rec = .error "problem") ∧
      ((∀ p, bs.process = some p → p.is_alive = true) →
        queue_process bs rec = .ok { bs with
          process_queue := bs.process_queue ++ [rec]
          notify_queue := bs.notify_queue ++ [NotifyTag.process] }) ∧
      (∀ bs', queue_process bs rec = .ok bs' →
        bs'.process_queue.length = bs.process_queue.length + 1 ∧
        bs'.notify_queue.length = bs.notify_queue.length + 1) := by
  intro bs rec
  refine ⟨?_, ?_, ?_⟩
  · rintro ⟨p, hp, halive⟩
    simp [queue_process, hp, halive]
  · intro halive
    match h : bs.process with
    | none => simp [queue_process, h]
    | some p =>
      have := halive p h
      simp [queue_process, h, this]
  · intro bs' hok
    match h : bs.process with
    | none =>
      simp only [queue_process, h] at hok
      cases hok
      simp
    | some p =>
      simp only [queue_process, h] at hok
      by_cases ha : p.is_alive
      · simp [ha] at hok
        cases hok
        simp
      · simp [Bool.not_eq_true] at ha
        simp [ha] at hok

/-- C10 witness: a dead attached process makes `_queue_process` fail, an
absent handle lets a record through, appending one element to each queue. -/
theorem queue_process_atomic_witness :
    queue_process { process := some { is_alive := false } } {} = .error "problem" ∧
    queue_process {} {} = .ok { process_queue := [{}], notify_queue := [NotifyTag.process] } := by
  constructor
  · exact (queue_process_atomic { process := some { is_alive := false } } {}).1
      ⟨{ is_alive := false }, rfl, rfl⟩
  · exact (queue_process_atomic {} {}).2.1 (fun p h => by cases h)

/-- C2 counterexample: supplying two payload variants to `_make_record` does
not fail; the builder silently keeps the first one of the if/elif chain (the
`run` payload), contradicting "constructing with more than one set variant
fails with a deterministic programming-error condition". -/
theorem make_record_two_variants_silently_picks_first :
    make_record { run := some {}, config := some {} } =
      .ok { record_type := some (.run {}) } := rfl

/-- The if/elif chain of `_make_record` realizes the priority pick
`record_args_first`. -/
theorem make_record_eq (a : MakeRecordArgs) :
    make_record a = match record_args_first a with
      | some p => .ok { record_type := some p }
      | none => .error "problem" := by
  obtain ⟨r, c, f, s, h, st, e, ar, rq⟩ := a
  cases r with
  | some _ => rfl
  | none =>
  cases c with
  | some _ => rfl
  | none =>
  cases s with
  | some _ => rfl
  | none =>
  cases h with
  | some _ => rfl
  | none =>
  cases f with
  | some _ => rfl
  | none =>
  cases st with
  | some _ => rfl
  | none =>
  cases e with
  | some _ => rfl
  | none =>
  cases ar with
  | some _ => rfl
  | none =>
  cases rq with
  | some _ => rfl
  | none => rfl

/-- The if/elif chain of `_make_request` realizes the priority pick
`request_args_first`, wrapped by `_make_record(request=...)`. -/
theorem make_request_eq (b : MakeRequestArgs) :
    make_request b = match request_args_first b with
      | some p => .ok { record_type := some (.request { request_type := some p }) }
      | none => .error "problem" := by
  obtain ⟨lg, df, gs, pa, re⟩ := b
  cases lg with
  | some _ => rfl
  | none =>
  cases df with
  | some _ => rfl
  | none =>
  cases gs with
  | some _ => rfl
  | none =>
  cases pa with
  | some _ => rfl
  | none =>
  cases re with
  | some _ => rfl
  | none => rfl

/-- C2 (amended): a builder result always has exactly one payload variant set
(the first supplied one, in the fixed if/elif priority order), and
constructing with zero variants fails deterministically with
`Exception("problem")`; with several variants the builder silently picks the
first rather than failing. -/
theorem make_record_make_request_exactly_one :
    ∀ (a : MakeRecordArgs) (b : MakeRequestArgs),
      (make_record a = .error "problem" ↔ record_args_first a = none) ∧
      (∀ rec, make_record a = .ok rec →
        rec.record_type = record_args_first a ∧ rec.record_type.isSome) ∧
      (make_request b = .error "problem" ↔ request_args_first b = none) ∧
      (∀ rec, make_request b = .ok rec →
        ∃ p, request_args_first b = some p ∧
          rec.record_type = some (.request { request_type := some p })) := by
  intro a b
  have hrec := make_record_eq a
  have hreq := make_request_eq b
  refine ⟨?_, ?_, ?_, ?_⟩
  · rw [hrec]
    cases record_args_first a <;> simp
  · intro rec hok
    rw [hrec] at hok
    cases hp : record_args_first a <;> rw [hp] at hok
    · cases hok
    · cases hok
      simp
  · rw [hreq]
    cases request_args_first b <;> simp
  · intro rec hok
    rw [hreq] at hok
    cases hp : request_args_first b <;> rw [hp] at hok
    · cases hok
    · cases hok
      exact ⟨_, rfl, rfl⟩

/-- C2 witness: at concrete inputs, zero variants raise `problem` and a
single `exit` payload yields a record with its one variant set. -/
theorem make_record_make_request_exactly_one_witness :
    make_record {} = .error "problem" ∧
    (({ record_type := some (.exit {}) } : Record)).record_type.isSome = true := by
  constructor
  · exact (make_record_make_request_exactly_one {} {}).1.mpr rfl
  · exact ((make_record_make_request_exactly_one { exit := some {} } {}).2.1 _ rfl).2

/-- C3 (code bug, evaluated at the failing input): `send_defer` marks its
defer request `control.local = true` but enqueues it through `_queue_process`
onto the process queue with a `NOTIFY_PROCESS` tag, and the `NOTIFY_PROCESS`
branch of the `wandb_internal` dispatch loop forwards the record to the
durability write queue unconditionally (only the `NOTIFY_REQUEST` branch
consults `control.local`).  The local-marked defer record therefore reaches
the durability log, contrary to the claim. -/
theorem local_defer_record_written_to_durability_log :
    ∃ bs' : BackendSenderState,
      send_defer {} = .ok bs' ∧
      ∃ d : Record,
        bs'.process_queue = [d] ∧
        d.control.is_local = true ∧
        bs'.notify_queue = [NotifyTag.process] ∧
        (wandb_internal_notify { process_queue := [d] } NotifyTag.process).write_queue = [d] := by
  refine ⟨_, rfl, ?_⟩
  exact ⟨_, rfl, rfl, rfl, rfl⟩

/-- C1 counterexample: after a synchronous exit record and six defer
round-trips the defer state sits at `end`, but handling one more exit record
resets it to `begin` — `handle_exit` restarts the sequence unconditionally,
so an exit record after `end` is not a no-op and the state does regress. -/
theorem defer_end_then_exit_regresses :
    ∃ smEnd : SM,
      defer_trace (handle_exit smRun0 { req_resp := true, uuid := "u" }) 6 = .ok smEnd ∧
      smEnd.defer_state = some DeferState.end_ ∧
      (handle_exit smEnd {}).defer_state = some DeferState.begin ∧
      DeferState.begin ≠ DeferState.end_ :=
  ⟨_, rfl, rfl, rfl, by decide⟩

/-- C1 (amended): per defer round-trip the state advances by exactly one,
from `begin` to `end`; at `end` no further defer is sent, the state stays at
`end` and the exit result is recorded.  However `handle_exit` unconditionally
(re)starts the sequence at `begin`, so an exit record handled after the state
reached `end` re-runs the defer sequence instead of being a no-op. -/
theorem defer_state_machine_amended :
    ∀ sm : SM,
      (∀ s, sm.defer_state = some s → s < DeferState.end_ →
        ∃ sm', handle_request_defer sm = .ok sm' ∧
          sm'.defer_state = some (s + 1) ∧
          sm'.defer_sends = sm.defer_sends + 1) ∧
      (sm.defer_state = some DeferState.end_ →
        ∃ sm', handle_request_defer sm = .ok sm' ∧
          sm'.defer_state = some DeferState.end_ ∧
          sm'.defer_sends = sm.defer_sends ∧
          sm'.exit_result.isSome) ∧
      (∀ e, (handle_exit sm e).defer_state = some DeferState.begin) := by
  intro sm
  refine ⟨?_, ?_, ?_⟩
  · intro s hs hlt
    simp only [DeferState.end_] at hlt
    interval_cases s
    · refine ⟨{ sm with defer_state := some (0 + 1), defer_sends := sm.defer_sends + 1 }, ?_, rfl, rfl⟩
      simp [handle_request_defer, hs, DeferState.begin, DeferState.flush_tb,
        DeferState.flush_dir, DeferState.flush_fp, DeferState.flush_fs, DeferState.end_]
    · refine ⟨{ sm with tb_watcher := none, defer_state := some (1 + 1), defer_sends := sm.defer_sends + 1 }, ?_, rfl, rfl⟩
      simp [handle_request_defer, hs, DeferState.begin, DeferState.flush_tb,
        DeferState.flush_dir, DeferState.flush_fp, DeferState.flush_fs, DeferState.end_]
    · refine ⟨{ sm with dir_watcher := none, defer_state := some (2 + 1), defer_sends := sm.defer_sends + 1 }, ?_, rfl, rfl⟩
      simp [handle_request_defer, hs, DeferState.begin, DeferState.flush_tb,
        DeferState.flush_dir, DeferState.flush_fp, DeferState.flush_fs, DeferState.end_]
    · refine ⟨{ sm with pusher := sm.pusher.map (fun p => { p with finish_called := true }), defer_state := some (3 + 1), defer_sends := sm.defer_sends + 1 }, ?_, rfl, rfl⟩
      simp [handle_request_defer, hs, DeferState.begin, DeferState.flush_tb,
        DeferState.flush_dir, DeferState.flush_fp, DeferState.flush_fs, DeferState.end_]
    · refine ⟨{ sm with fs := none, defer_state := some (4 + 1), defer_sends := sm.defer_sends + 1 }, ?_, rfl, rfl⟩
      simp [handle_request_defer, hs, DeferState.begin, DeferState.flush_tb,
        DeferState.flush_dir, DeferState.flush_fp, DeferState.flush_fs, DeferState.end_]
  · intro hs
    rcases hu : sm.exit_sync_uuid with _ | u
    · refine ⟨{ sm with exit_result := some {} }, ?_, hs, rfl, rfl⟩
      simp [handle_request_defer, hs, hu, DeferState.begin, DeferState.flush_tb,
        DeferState.flush_dir, DeferState.flush_fp, DeferState.flush_fs, DeferState.end_]
    · rcases hp : sm.pusher with _ | p
      · refine ⟨{ sm with resp_q := sm.resp_q ++ [{ uuid := u, body := .exit_result {} }], exit_result := some {} }, ?_, hs, rfl, rfl⟩
        simp [handle_request_defer, hs, hu, hp, DeferState.begin, DeferState.flush_tb,
          DeferState.flush_dir, DeferState.flush_fp, DeferState.flush_fs, DeferState.end_]
      · refine ⟨{ sm with pusher := none, resp_q := sm.resp_q ++ [{ uuid := u, body := .exit_result {} }], exit_result := some {} }, ?_, hs, rfl, rfl⟩
        simp [handle_request_defer, hs, hu, hp, DeferState.begin, DeferState.flush_tb,
          DeferState.flush_dir, DeferState.flush_fp, DeferState.flush_fs, DeferState.end_]
  · intro e
    cases he : e.req_resp <;> simp [handle_exit, he]

/-- C1 witness: at `begin` in a concrete state, one round-trip advances the
state to `begin + 1` and issues one more defer send. -/
theorem defer_state_machine_amended_witness :
    ∃ sm', handle_request_defer { defer_state := some DeferState.begin } = .ok sm' ∧
      sm'.defer_state = some (DeferState.begin + 1) ∧
      sm'.defer_sends = ({ defer_state := some DeferState.begin } : SM).defer_sends + 1 :=
  (defer_state_machine_amended { defer_state := some DeferState.begin }).1
    DeferState.begin rfl (by decide)

/-- C9 (code bug, evaluated at the failing input): after a synchronous exit
completes, `handle_request_defer` has cleared the pusher (`None`) and recorded
the exit result; a subsequent poll-exit request with `req_resp` then evaluates
`self._pusher.join()` on `None` and raises `AttributeError` instead of
replying — the handler is not total in this reachable state. -/
theorem poll_exit_after_sync_exit_raises :
    ∃ smEnd : SM,
      defer_trace (handle_exit smRun0 { req_resp := true, uuid := "u" }) 6 = .ok smEnd ∧
      smEnd.pusher = none ∧
      smEnd.exit_result = some {} ∧
      handle_request_poll_exit smEnd { req_resp := true, uuid := "p" } =
        .error "AttributeError: NoneType object has no attribute join" :=
  ⟨_, rfl, rfl, rfl, rfl⟩

/-- C4: on the first run record, a violated resume requirement (`must` with
no prior run, or `never` with a prior run) leaves the run state, the offsets
and the file stream unchanged, performs no `upsert_run` call, and — when a
response is requested — replies with a Run result carrying an `INVALID`
error. -/
theorem handle_run_resume_conflict_invalid :
    ∀ (sm : SM) (data : RunData) (api : ApiResponses),
      sm.run = none →
      ((sm.settings.resume = some "must" ∧ api.resume_status = none) ∨
       (sm.settings.resume = some "never" ∧ api.resume_status.isSome)) →
      (handle_run sm data api).run = none ∧
      (handle_run sm data api).upsert_calls = sm.upsert_calls ∧
      (handle_run sm data api).offsets = sm.offsets ∧
      (handle_run sm data api).fs = sm.fs ∧
      (data.req_resp = true →
        ∃ err : ErrorInfo, err.code = .INVALID ∧
          (handle_run sm data api).resp_q = sm.resp_q ++
            [{ uuid := data.uuid, body := .run_result data.run (some err) }]) ∧
      (data.req_resp = false → (handle_run sm data api).resp_q = sm.resp_q) := by
  intro sm data api hrun hconf
  rcases hconf with ⟨hres, hstat⟩ | ⟨hres, hstat⟩ <;>
    [skip; obtain ⟨st, hst⟩ := Option.isSome_iff_exists.mp hstat] <;>
    cases hc : data.run.config <;> cases hrr : data.req_resp <;>
    refine ⟨?_, ?_, ?_, ?_, ?_, ?_⟩ <;>
    simp_all [handle_run, maybe_setup_resume]

/-- C4 witness: `resume=never` with an existing remote run and a requested
response: no upsert, run still unset, and an `INVALID` run result queued. -/
theorem handle_run_resume_conflict_invalid_witness :
    (handle_run { settings := { resume := some "never" } }
        { run := { run_id := "r1" }, req_resp := true, uuid := "u" }
        { resume_status := some {} }).upsert_calls = [] ∧
    (handle_run { settings := { resume := some "never" } }
        { run := { run_id := "r1" }, req_resp := true, uuid := "u" }
        { resume_status := some {} }).run = none ∧
    ∃ err : ErrorInfo, err.code = .INVALID ∧
      (handle_run { settings := { resume := some "never" } }
          { run := { run_id := "r1" }, req_resp := true, uuid := "u" }
          { resume_status := some {} }).resp_q =
        [{ uuid := "u", body := .run_result { run_id := "r1" } (some err) }] := by
  have h := handle_run_resume_conflict_invalid
    { settings := { resume := some "never" } }
    { run := { run_id := "r1" }, req_resp := true, uuid := "u" }
    { resume_status := some {} }
    rfl (Or.inr ⟨rfl, rfl⟩)
  exact ⟨h.2.1, h.1, h.2.2.2.2.1 rfl⟩

set_option maxHeartbeats 2000000 in
/-- C5: with `resume` set to `allow` or `auto` and a prior run reported, the
offsets are computed from the prior tails (`runtime` is the max of the events
and history tail runtimes, `step` is the history tail step plus one, and the
per-stream offsets are the reported line counts) and become the starting
positions of the file-stream policies installed on first run creation; under
the spec-modelled append-line semantics, streaming `n` further lines from
such a starting position stores exactly `n` new lines. -/
theorem handle_run_resume_offsets_streaming :
    ∀ (sm : SM) (data : RunData) (api : ApiResponses) (st : ResumeStatus) (r : String),
      sm.run = none →
      sm.settings.resume = some r →
      (r = "allow" ∨ r = "auto") →
      api.resume_status = some st →
      (handle_run sm data api).offsets.runtime =
        max ((st.eventsTail.map (fun e => e.runtime.getD 0)).getD 0)
            ((st.historyTail.map (fun h => h.runtime.getD 0)).getD 0) ∧
      (handle_run sm data api).offsets.step =
        ((st.historyTail.map (fun h => h.step.getD (-1))).getD (-1)) + 1 ∧
      (handle_run sm data api).offsets.history = st.historyLineCount ∧
      (handle_run sm data api).offsets.events = st.eventsLineCount ∧
      (handle_run sm data api).offsets.output = st.logLineCount ∧
      (∃ fs : FileStream, (handle_run sm data api).fs = some fs ∧
        fs.policies =
          [(SUMMARY_FNAME, .summary),
           (HISTORY_FNAME, .jsonl st.historyLineCount),
           (EVENTS_FNAME, .jsonl st.eventsLineCount),
           (OUTPUT_FNAME, .crdedupe st.logLineCount)]) ∧
      (∀ n, jsonl_line_count st.historyLineCount n = st.historyLineCount + n) := by
  intro sm data api st r hrun hres hr hstat
  rcases hr with hr | hr <;> subst hr <;>
    cases hht : st.historyTail <;> cases het : st.eventsTail <;>
    cases hc : data.run.config <;> cases hrr : data.req_resp <;>
    refine ⟨?_, ?_, ?_, ?_, ?_,
      ⟨{ policies :=
           [(SUMMARY_FNAME, .summary),
            (HISTORY_FNAME, .jsonl st.historyLineCount),
            (EVENTS_FNAME, .jsonl st.eventsLineCount),
            (OUTPUT_FNAME, .crdedupe st.logLineCount)]
         pushes := []
         started := true }, ?_, rfl⟩, fun n => rfl⟩ <;>
    simp_all [handle_run, maybe_setup_resume]

/-- C5 witness: a synthetic prior tail `{step: 5, history_lines: 12}` yields
a step offset of 6 and a history starting position of 12, and streaming 3
further history rows stores 15 lines in total, i.e. exactly 3 new ones. -/
theorem handle_run_resume_offsets_streaming_witness :
    (handle_run { settings := { resume := some "allow" } } { run := {} }
        { resume_status := some { historyTail := some { step := some 5 }, historyLineCount := 12 } }).offsets.step = 6 ∧
    (handle_run { settings := { resume := some "allow" } } { run := {} }
        { resume_status := some { historyTail := some { step := some 5 }, historyLineCount := 12 } }).offsets.history = 12 ∧
    jsonl_line_count 12 3 = 12 + 3 := by
  have h := handle_run_resume_offsets_streaming
    { settings := { resume := some "allow" } } { run := {} }
    { resume_status := some { historyTail := some { step := some 5 }, historyLineCount := 12 } }
    { historyTail := some { step := some 5 }, historyLineCount := 12 } "allow"
    rfl rfl (Or.inl rfl) rfl
  refine ⟨?_, h.2.2.1, h.2.2.2.2.2.2 3⟩
  rw [h.2.1]
  rfl

/-- A key that is not among a dict's keys does not resolve. -/
theorem lookup_key_eq_none_of_not_mem :
    ∀ (d : SummaryDict) (K : String), K ∉ d.map Prod.fst → lookup_key d K = none := by
  intro d K h
  induction d with
  | nil => rfl
  | cons kv rest ih =>
    obtain ⟨k, v⟩ := kv
    simp only [List.map_cons, List.mem_cons, not_or] at h
    simp only [lookup_key]
    rw [if_neg (fun hk => h.1 hk.symm)]
    exact ih h.2

/-- Deleting a key from a dict with unique keys removes it entirely. -/
theorem lookup_key_erase_key_self :
    ∀ (d : SummaryDict) (K : String), (d.map Prod.fst).Nodup →
      lookup_key (erase_key d K) K = none := by
  intro d K h
  induction d with
  | nil => rfl
  | cons kv rest ih =>
    obtain ⟨k, v⟩ := kv
    simp only [List.map_cons, List.nodup_cons] at h
    by_cases hk : k = K
    · subst hk
      simp only [erase_key, if_pos rfl]
      exact lookup_key_eq_none_of_not_mem rest k h.1
    · simp only [erase_key, if_neg hk, lookup_key]
      exact ih h.2

/-- `set_key` introduces no key other than the written one. -/
theorem mem_keys_set_key :
    ∀ (d : SummaryDict) (K x : String) (v : JVal),
      x ∈ (set_key d K v).map Prod.fst → x ∈ d.map Prod.fst ∨ x = K := by
  intro d K x v h
  induction d with
  | nil =>
    simp only [set_key, List.map_cons, List.map_nil, List.mem_singleton] at h
    exact Or.inr h
  | cons kv rest ih =>
    obtain ⟨k, w⟩ := kv
    by_cases hk : k = K
    · simp only [set_key, if_pos hk, List.map_cons, List.mem_cons] at h
      simp only [List.map_cons, List.mem_cons]
      exact Or.inl h
    · simp only [set_key, if_neg hk, List.map_cons, List.mem_cons] at h
      rcases h with h | h
      · exact Or.inl (by simp [h])
      · rcases ih h with h' | h'
        · exact Or.inl (by simp [h'])
        · exact Or.inr h'

/-- `d[key] = v` preserves uniqueness of the dict's keys. -/
theorem keys_nodup_set_key :
    ∀ (d : SummaryDict) (K : String) (v : JVal),
      (d.map Prod.fst).Nodup → ((set_key d K v).map Prod.fst).Nodup := by
  intro d K v h
  induction d with
  | nil => simp [set_key]
  | cons kv rest ih =>
    obtain ⟨k, w⟩ := kv
    simp only [List.map_cons, List.nodup_cons] at h
    by_cases hk : k = K
    · simp only [set_key, if_pos hk, List.map_cons, List.nodup_cons]
      exact ⟨h.1, h.2⟩
    · simp only [set_key, if_neg hk, List.map_cons, List.nodup_cons]
      refine ⟨fun hx => ?_, ih h.2⟩
      rcases mem_keys_set_key rest K k v hx with hmem | hEq
      · exact h.1 hmem
      · exact hk hEq

/-- After `d[key] = v`, looking the key up yields `v`. -/
theorem lookup_key_set_key_self :
    ∀ (d : SummaryDict) (K : String) (v : JVal),
      lookup_key (set_key d K v) K = some v := by
  intro d K v
  induction d with
  | nil => simp [set_key, lookup_key]
  | cons kv rest ih =>
    obtain ⟨k, w⟩ := kv
    by_cases hk : k = K
    · simp [set_key, if_pos hk, lookup_key, hk]
    · simp only [set_key, if_neg hk, lookup_key]
      exact ih

/-- C6: within one Summary record all `update` instructions run before any
`remove` instruction, so an update and a remove that target the same key
leave that key absent from the consolidated summary.  (The preconditions of
the claim hold here: the remove targets the leaf the update just wrote, and
each item sets only `key`.) -/
theorem handle_summary_update_then_remove_absent :
    ∀ (sm : SM) (K : String) (v : JVal),
      sm.dir_watcher = some () →
      (sm.consolidated_summary.map Prod.fst).Nodup →
      ∃ sm', handle_summary sm
          { update := [{ key := K, value := v }], remove := [{ key := K }] } = .ok sm' ∧
        lookup_key sm'.consolidated_summary K = none := by
  intro sm K v hdw hnodup
  have habsent : lookup_key (erase_key (set_key sm.consolidated_summary K v) K) K = none :=
    lookup_key_erase_key_self _ _ (keys_nodup_set_key _ _ _ hnodup)
  have hcont : contains_key (set_key sm.consolidated_summary K v) K = true := by
    simp [contains_key, lookup_key_set_key_self]
  cases hfs : sm.fs with
  | none =>
    refine ⟨{ sm with
        consolidated_summary := erase_key (set_key sm.consolidated_summary K v) K,
        summary_file_writes := sm.summary_file_writes + 1,
        dir_policy_updates := sm.dir_policy_updates ++ [(SUMMARY_FNAME, "end")] }, ?_, habsent⟩
    simp [handle_summary, apply_summary_update, apply_summary_remove, summary_item_key,
      set_path, del_path, hcont, save_summary, save_file, hfs, hdw, Bind.bind, Except.bind,
      Pure.pure, Except.pure]
  | some fs =>
    refine ⟨{ sm with
        consolidated_summary := erase_key (set_key sm.consolidated_summary K v) K,
        fs := some { fs with pushes := fs.pushes ++
          [(SUMMARY_FNAME, FsData.jsonDoc (erase_key (set_key sm.consolidated_summary K v) K))] },
        summary_file_writes := sm.summary_file_writes + 1,
        dir_policy_updates := sm.dir_policy_updates ++ [(SUMMARY_FNAME, "end")] }, ?_, habsent⟩
    simp [handle_summary, apply_summary_update, apply_summary_remove, summary_item_key,
      set_path, del_path, hcont, save_summary, save_file, hfs, hdw, Bind.bind, Except.bind,
      Pure.pure, Except.pure]

/-- C6 witness: updating then removing key `a` in one record on an empty
consolidated summary succeeds and leaves `a` absent. -/
theorem handle_summary_update_then_remove_absent_witness :
    ∃ sm', handle_summary { dir_watcher := some () }
        { update := [{ key := "a", value := JVal.num 1 }], remove := [{ key := "a" }] } = .ok sm' ∧
      lookup_key sm'.consolidated_summary "a" = none :=
  handle_summary_update_then_remove_absent { dir_watcher := some () } "a" (JVal.num 1)
    rfl (by simp)

/-- C7: on either stream, `handle_output` buffers a fragment lacking a
trailing newline into that stream's buffer (touching neither the file stream
nor the other stream's buffer), and a newline-terminated fragment produces
exactly one pushed output line: the stream marker (empty for stdout, `ERROR `
for stderr), the timestamp, the buffered fragments, and the final fragment —
then clears the buffer.  The initial buffer content is arbitrary, so repeated
unterminated fragments coalesce into the one stored line. -/
theorem handle_output_coalesces_partial_lines :
    ∀ (sm : SM) (fs0 : FileStream) (stream : OutputType) (f g iso1 iso2 : String),
      sm.fs = some fs0 →
      ends_with_newline f = false →
      ends_with_newline g = true →
      (handle_output sm { output_type := stream, line := f } iso1).fs = some fs0 ∧
      (handle_output sm { output_type := stream, line := f } iso1).buf stream =
        sm.buf stream ++ f ∧
      (∀ other, other ≠ stream →
        (handle_output sm { output_type := stream, line := f } iso1).buf other =
          sm.buf other) ∧
      (handle_output (handle_output sm { output_type := stream, line := f } iso1)
          { output_type := stream, line := g } iso2).fs =
        some { fs0 with pushes := fs0.pushes ++
          [(OUTPUT_FNAME, FsData.text
            (stream_prepend stream ++ (iso2 ++ " ") ++ (sm.buf stream ++ f) ++ g))] } ∧
      (handle_output (handle_output sm { output_type := stream, line := f } iso1)
          { output_type := stream, line := g } iso2).buf stream = "" := by
  intro sm fs0 stream f g iso1 iso2 hfs hf hg
  cases stream <;>
    refine ⟨?_, ?_, fun other hother => ?_, ?_, ?_⟩ <;>
    first
      | (cases other <;>
          first
            | exact absurd rfl hother
            | simp [handle_output, hfs, hf, SM.buf, SM.setBuf])
      | simp [handle_output, hfs, hf, hg, SM.buf, SM.setBuf, stream_prepend]

/-- C7 witness: pushing `hello` (no newline) then ` world\n` on stdout stores
exactly one output line `t2 hello world\n`; on stderr the stored line carries
the `ERROR ` marker; and two buffered stdout fragments coalesce with the
final fragment into the single line `t2 abc\n`. -/
theorem handle_output_coalesces_partial_lines_witness :
    (handle_output (handle_output { fs := some ({} : FileStream) }
        { output_type := .stdout, line := "hello" } "t1")
        { output_type := .stdout, line := " world\n" } "t2").fs =
      some { pushes := [(OUTPUT_FNAME, FsData.text "t2 hello world\n")] } ∧
    (handle_output (handle_output { fs := some ({} : FileStream) }
        { output_type := .stderr, line := "oops" } "t1")
        { output_type := .stderr, line := " bad\n" } "t2").fs =
      some { pushes := [(OUTPUT_FNAME, FsData.text "ERROR t2 oops bad\n")] } ∧
    (handle_output (handle_output (handle_output { fs := some ({} : FileStream) }
        { output_type := .stdout, line := "a" } "t0")
        { output_type := .stdout, line := "b" } "t1")
        { output_type := .stdout, line := "c\n" } "t2").fs =
      some { pushes := [(OUTPUT_FNAME, FsData.text "t2 abc\n")] } := by
  refine ⟨?_, ?_, ?_⟩
  · exact (handle_output_coalesces_partial_lines { fs := some {} } {} .stdout
      "hello" " world\n" "t1" "t2" rfl (by decide) (by decide)).2.2.2.1
  · exact (handle_output_coalesces_partial_lines { fs := some {} } {} .stderr
      "oops" " bad\n" "t1" "t2" rfl (by decide) (by decide)).2.2.2.1
  · exact (handle_output_coalesces_partial_lines
      (handle_output { fs := some {} } { output_type := .stdout, line := "a" } "t0") {}
      .stdout "b" "c\n" "t1" "t2" rfl (by decide) (by decide)).2.2.2.1

/-- Entries weakly sorted by path whose paths are pairwise distinct are
strictly sorted by path. -/
theorem entries_pairwise_lt (l : List ManifestEntry)
    (hs : l.Pairwise (fun a b => a.path ≤ b.path))
    (hn : (l.map ManifestEntry.path).Nodup) :
    l.Pairwise (fun a b => a.path < b.path) := by
  have hn' : l.Pairwise (fun a b => a.path ≠ b.path) := List.pairwise_map.mp hn
  exact (hs.and hn').imp (fun h => lt_of_le_of_ne h.1 h.2)

/-- Sorting by path is invariant under permutation of the entries when the
paths are unique. -/
theorem sort_entries_eq (l1 l2 : List ManifestEntry) (hp : l1.Perm l2)
    (hn : (l1.map ManifestEntry.path).Nodup) :
    List.insertionSort (fun a b => a.path ≤ b.path) l1 =
    List.insertionSort (fun a b => a.path ≤ b.path) l2 := by
  have hs1 := List.sorted_insertionSort (fun a b : ManifestEntry => a.path ≤ b.path) l1
  have hs2 := List.sorted_insertionSort (fun a b : ManifestEntry => a.path ≤ b.path) l2
  have hp1 := List.perm_insertionSort (fun a b : ManifestEntry => a.path ≤ b.path) l1
  have hp2 := List.perm_insertionSort (fun a b : ManifestEntry => a.path ≤ b.path) l2
  have hn2 : (l2.map ManifestEntry.path).Nodup := ((hp.map _).nodup_iff).mp hn
  have hn1s : ((List.insertionSort (fun a b : ManifestEntry => a.path ≤ b.path) l1).map
      ManifestEntry.path).Nodup := ((hp1.map _).nodup_iff).mpr hn
  have hn2s : ((List.insertionSort (fun a b : ManifestEntry => a.path ≤ b.path) l2).map
      ManifestEntry.path).Nodup := ((hp2.map _).nodup_iff).mpr hn2
  exact List.eq_of_perm_of_sorted (hp1.trans (hp.trans hp2.symm))
    (entries_pairwise_lt _ hs1 hn1s) (entries_pairwise_lt _ hs2 hn2s)

/-- C8: manifest serialization is order-independent in input and
deterministic in output: two manifests holding the same entries (in any
insertion order, with unique paths as the path-keyed entry mapping
guarantees) serialize identically, with entries ordered by path. -/
theorem make_artifact_manifest_order_independent :
    ∀ m1 m2 : ArtifactManifestData,
      m1.version = m2.version →
      m1.storage_policy = m2.storage_policy →
      m1.storage_policy_config = m2.storage_policy_config →
      m1.entries.Perm m2.entries →
      (m1.entries.map ManifestEntry.path).Nodup →
      make_artifact_manifest m1 = make_artifact_manifest m2 ∧
      ((make_artifact_manifest m1).contents.map ProtoEntry.path).Sorted (· ≤ ·) := by
  intro m1 m2 hv hsp hcfg hperm hnodup
  constructor
  · simp only [make_artifact_manifest, hv, hsp, hcfg, sort_entries_eq _ _ hperm hnodup]
  · have hs := List.sorted_insertionSort (fun a b : ManifestEntry => a.path ≤ b.path) m1.entries
    simp only [make_artifact_manifest, List.map_map]
    rw [List.Sorted, List.pairwise_map]
    exact hs

/-- C8 witness: the same two entries inserted in either order serialize to
the same manifest, sorted by path. -/
theorem make_artifact_manifest_order_independent_witness :
    make_artifact_manifest { entries := [entryA, entryB] } =
      make_artifact_manifest { entries := [entryB, entryA] } ∧
    ((make_artifact_manifest { entries := [entryA, entryB] }).contents.map
      ProtoEntry.path).Sorted (· ≤ ·) :=
  make_artifact_manifest_order_independent
    { entries := [entryA, entryB] } { entries := [entryB, entryA] }
    rfl rfl rfl (List.Perm.swap entryB entryA []) (by decide)

end ClientNG
